import Mathlib

/-!
Shallow embedding of the TaskHawk action-execution engine, trace recorder,
persistence layer and blob-store client, together with proofs of the
specification's claims about them.

Conventions of the embedding:
* JavaScript `undefined`/`null` optional values are `Option`.
* JavaScript truthiness tests on strings (`if (!s)`) are modelled by
  `strFalsy`, which treats `none` and the empty string as falsy, exactly as
  JS does for `undefined`/`null`/`""`.
* A thrown JS exception is `Except.error msg` carrying the error's message.
* Wall-clock timestamps (`Date.now()`, `toISOString()`) are abstracted to a
  `Nat` parameter `now` supplied by the caller; durations reported in result
  objects are likewise abstracted (they appear in no verified property).
* Network / page-control I/O is abstracted to explicit oracles describing
  the outcome of each external call.
* String predicates (`startsWith`, `includes`, key lookup) are defined over
  the character lists of the strings so that every definition evaluates
  inside the kernel.
-/

namespace TaskHawk

/-- JS `a || b` for string-valued optionals: `a` unless `a` is falsy
(`undefined`, `null` or the empty string), in which case `b` verbatim. -/
def jsOr (a b : Option String) : Option String :=
  match a with
  | some s => if s = "" then b else some s
  | none => b

/-- JS `a || b` with a mandatory (non-optional) fallback value. -/
def jsOrV (a : Option String) (b : String) : String :=
  match a with
  | some s => if s = "" then b else s
  | none => b

/-- JS truthiness of an optional string: `!s` is true for `undefined`,
`null` and `""`. -/
def strFalsy (a : Option String) : Bool :=
  match a with
  | some s => s = ""
  | none => true

/-- Contiguous-sublist test on character lists (JS `String.includes`). -/
def listIsInfix (needle : List Char) : List Char → Bool
  | [] => needle.isEmpty
  | c :: rest => needle.isPrefixOf (c :: rest) || listIsInfix needle rest

/-- Character list of a string, lower-cased (JS `toLowerCase()`). -/
def lowerChars (s : String) : List Char := s.data.map Char.toLower

/-- JS `hay?.toLowerCase().includes(needle.toLowerCase())`: case-insensitive
substring containment, false when `hay` is absent. -/
def containsCI (hay : Option String) (needle : String) : Bool :=
  match hay with
  | some h => listIsInfix (lowerChars needle) (lowerChars h)
  | none => false

/-- JS `s.startsWith(p)` as a character-list prefix test. -/
def strStartsWith (s p : String) : Bool := p.data.isPrefixOf s.data

/-- JS object property access `obj[k]`: first binding of key `k` in the
insertion-ordered association list. -/
def lookupKey {E : Type} (k : String) : List (String × E) → Option E
  | [] => none
  | (k', e) :: rest => if k' = k then some e else lookupKey k rest

/-- One element of a page snapshot (`src/src/executor/browser.js`):
an accessibility-tree entry with the fields the engine reads. -/
structure ElementDescriptor where
  role : Option String := none
  name : Option String := none
  label : Option String := none
  value : Option String := none
  text : Option String := none
  placeholder : Option String := none
deriving Repr, DecidableEq

/-- A page snapshot as returned by the browser tool: a status, the page url
and an insertion-ordered mapping from opaque reference to element. -/
structure Snapshot where
  status : String := "ok"
  url : Option String := none
  elements : List (String × ElementDescriptor) := []
deriving Repr, DecidableEq

/-- True when the element's `name`, `label` or `value` contains the selector
case-insensitively (strategy 2 of `BrowserController.findElement`). -/
def nlvMatch (selector : String) (e : ElementDescriptor) : Bool :=
  containsCI e.name selector || containsCI e.label selector ||
    containsCI e.value selector

/-- Strategy-2 scan of `BrowserController.findElement`: first element, in
insertion order, whose name/label/value contains the selector. -/
def findByNameLabelValue (selector : String) :
    List (String × ElementDescriptor) → Option String
  | [] => none
  | (k, e) :: rest =>
    if nlvMatch selector e then some k else findByNameLabelValue selector rest

/-- Strategy-3 scan of `BrowserController.findElement`: first element, in
insertion order, whose `text` contains the selector. -/
def findByText (selector : String) :
    List (String × ElementDescriptor) → Option String
  | [] => none
  | (k, e) :: rest =>
    if containsCI e.text selector then some k else findByText selector rest

/-- `BrowserController.findElement(selector, snapshot)` from
`src/src/executor/browser.js` lines 164-192, returning the `ref` of the
returned element object (or `none` for JS `null`). Strategy 1 fires when the
selector starts with `aria-` or is a key of `snapshot.elements`; strategy 2
scans name/label/value; strategy 3 scans text. -/
def findElement (selector : String) (snap : Snapshot) : Option String :=
  if strStartsWith selector "aria-" ||
      (lookupKey selector snap.elements).isSome then
    some selector
  else
    match findByNameLabelValue selector snap.elements with
    | some k => some k
    | none => findByText selector snap.elements

/-! ## Step data model (planner output consumed by the executor) -/

/-- Parameters of a step, a union of the kind-specific fields read by the
handlers of `ActionExecutor` (`src/unnamed/part_001`). An absent field is a
JS `undefined`. -/
structure StepParams where
  url : Option String := none
  selector : Option String := none
  text : Option String := none
  fields : Option (List (String × String)) := none
  duration : Option Nat := none
  -- the JS field is named `attribute`, a reserved word in Lean
  attr : Option String := none
  selectors : Option (List String) := none
  value : Option String := none
  doubleClick : Bool := false
  pressEnter : Bool := false
  slowly : Bool := false
deriving Repr, DecidableEq

/-- A planner-issued step. `params := none` models a step object with no
`params` property at all. -/
structure Step where
  id : Option String := none
  name : Option String := none
  type : Option String := none
  params : Option StepParams := none
  continueOnError : Bool := false
  duration : Option Nat := none
deriving Repr, DecidableEq

/-- Result of `BrowserController.fillForm`: per-field outcome counts and the
collected per-field errors. -/
structure FillFormError where
  selector : String
  error : String
deriving Repr, DecidableEq

/-- Aggregate object returned by `BrowserController.fillForm`. -/
structure FillFormResult where
  totalFields : Nat := 0
  successful : Nat := 0
  failed : Nat := 0
  errors : List FillFormError := []
deriving Repr, DecidableEq

/-- The structured `result` object a successful step handler returns:
its action tag, human-readable `output` line, and (for extract/snapshot)
the extracted data. Fields of the JS object that merely echo the input
parameters back to the caller are not modelled. -/
structure StepOutput where
  action : String
  output : String
  extracted : List (String × Option String) := []
  snap : Option Snapshot := none
deriving Repr, DecidableEq

/-- The `StepResult` object `ActionExecutor.executeStep` returns. The JS
`duration` field (wall-clock ms) is abstracted to `0`. -/
structure StepResult where
  success : Bool
  status : String
  result : Option StepOutput := none
  error : Option String := none
  duration : Nat := 0
  step : Step
deriving Repr, DecidableEq

/-! ## ExecutionLogger (`src/src/logger/index.js`) -/

/-- The four recognized execution states (`ExecutionState` enum). -/
def stateValues : List String := ["planning", "executing", "completed", "failed"]

/-- One entry of `trace.steps`, as built by `ExecutionLogger.logStep`. -/
structure StepLogEntry where
  stepIndex : Nat
  stepName : String
  stepType : String
  status : String
  timestamp : Nat
  result : Option StepOutput
  output : Option String
  duration : Option Nat
deriving Repr, DecidableEq

/-- The error record `ExecutionLogger.logError` stamps onto `trace.error`.
The executor passes `{ step }` as context; the JS `stack` field is not
modelled. -/
structure ErrorRecord where
  message : String
  context : Option Step
  timestamp : Nat
deriving Repr, DecidableEq

/-- The in-memory execution trace held by an `ExecutionLogger`. The JS
`finalResult` can be any value; it is abstracted to an optional string. -/
structure Trace where
  sessionId : String
  goal : Option String := none
  startTime : Nat := 0
  endTime : Option Nat := none
  steps : List StepLogEntry := []
  finalResult : Option String := none
  error : Option ErrorRecord := none
deriving Repr, DecidableEq

/-- The mutable state of an `ExecutionLogger`: its session id, current
execution state and trace. -/
structure LoggerState where
  sessionId : String
  state : String := "planning"
  trace : Trace
deriving Repr, DecidableEq

/-- A freshly constructed `ExecutionLogger` (constructor, lines 32-44). -/
def initLogger (sid : String) (startTime : Nat) : LoggerState :=
  { sessionId := sid
    state := "planning"
    trace := { sessionId := sid, startTime := startTime } }

/-- Body of `ExecutionLogger.setState` after the validity check: overwrite
the state, and on `completed`/`failed` stamp `trace.endTime` with the
current time. -/
def setStateCore (now : Nat) (newState : String) (L : LoggerState) : LoggerState :=
  let L' := { L with state := newState }
  if newState = "completed" || newState = "failed" then
    { L' with trace := { L'.trace with endTime := some now } }
  else
    L'

/-- `ExecutionLogger.setState` (lines 68-78): throws on a state outside the
recognized enum, otherwise updates via `setStateCore`. -/
def setState (now : Nat) (newState : String) (L : LoggerState) :
    Except String LoggerState :=
  if stateValues.contains newState then
    .ok (setStateCore now newState L)
  else
    .error ("Invalid state: " ++ newState)

/-- The entry `ExecutionLogger.logStep` appends for given arguments and
prior step count (`stepLog` object, lines 96-105). -/
def mkStepLogEntry (now : Nat) (step : Step) (result : Option StepOutput)
    (status : String) (output : Option String) (priorLen : Nat) : StepLogEntry :=
  { stepIndex := priorLen
    stepName := jsOrV (jsOr step.name step.id) ("step_" ++ toString priorLen)
    stepType := jsOrV step.type "unknown"
    status := status
    timestamp := now
    result := result
    output := output
    duration := step.duration }

/-- `ExecutionLogger.logStep` (lines 95-108): push one entry onto
`trace.steps`. -/
def logStep (now : Nat) (step : Step) (result : Option StepOutput)
    (status : String) (output : Option String) (L : LoggerState) : LoggerState :=
  { L with trace := { L.trace with steps :=
      L.trace.steps ++
        [mkStepLogEntry now step result status output L.trace.steps.length] } }

/-- `ExecutionLogger.logError` (lines 115-127): stamp `trace.error`, then
`setState(FAILED)`; `"failed"` is always a recognized state, so the inner
`setState` never throws and is inlined as `setStateCore`. -/
def logError (now : Nat) (msg : String) (ctx : Option Step) (L : LoggerState) :
    LoggerState :=
  setStateCore now "failed"
    { L with trace := { L.trace with error := some ⟨msg, ctx, now⟩ } }

/-! ## WalrusClient (`src/src/walrus/client.js`) -/

/-- The client configuration fields `fetchWithRetry` reads. The JS
constructor turns a falsy option into its default, so `maxRetries` is never
`0` on a real client; theorems state `1 ≤ maxRetries` explicitly. -/
structure WalrusCfg where
  maxRetries : Nat := 3
  retryDelay : Nat := 1000
  timeout : Nat := 30000
deriving Repr, DecidableEq

/-- Outcome of one attempted `fetch` call, indexed by attempt number:
an ok response (its body), an `AbortError` raised by the per-attempt
timeout, or any other failure (a non-ok HTTP status turned into a thrown
`HTTP <status>: <text>` error, or a network rejection) with its message. -/
inductive FetchOutcome
  | ok (resp : String)
  | abort
  | err (msg : String)
deriving Repr, DecidableEq

/-- The retry loop of `WalrusClient.fetchWithRetry` (lines 72-107),
unrolled on the number of remaining attempts. Returns the call's outcome
together with the list of back-off delays slept between attempts. On an
`AbortError` the loop rethrows the timeout error immediately; on any other
failure it sleeps `retryDelay * 2^(attempt-1)` if attempts remain. Exhaustion
(`remaining = 0`) raises the aggregate error carrying the attempt count and
the last failure's message. -/
def fetchLoop (cfg : WalrusCfg) (outs : Nat → FetchOutcome) :
    (remaining : Nat) → (attempt : Nat) → Option String →
      Except String String × List Nat
  | 0, _, last =>
    (.error ("Request failed after " ++ toString cfg.maxRetries ++
      " attempts: " ++ last.getD "null"), [])
  | r + 1, attempt, _ =>
    match outs attempt with
    | .ok v => (.ok v, [])
    | .abort =>
      (.error ("Request timeout after " ++ toString cfg.timeout ++ "ms"), [])
    | .err m =>
      if attempt < cfg.maxRetries then
        let d := cfg.retryDelay * 2 ^ (attempt - 1)
        let rest := fetchLoop cfg outs r (attempt + 1) (some m)
        (rest.1, d :: rest.2)
      else
        fetchLoop cfg outs r (attempt + 1) (some m)

/-- `WalrusClient.fetchWithRetry(url, options)` (lines 69-110): run the
attempt loop starting at attempt 1 with `maxRetries` attempts available. -/
def fetchWithRetry (cfg : WalrusCfg) (outs : Nat → FetchOutcome) :
    Except String String × List Nat :=
  fetchLoop cfg outs cfg.maxRetries 1 none

/-! ## PersistentLogger storage layer (`src/src/logger/index.js`) -/

/-- One entry of `StorageRecord.errors` (`this.storage.errors.push(...)`). -/
structure StorageErrorEntry where
  type : String
  error : String
  timestamp : Nat
deriving Repr, DecidableEq

/-- The `this.storage` record owned by a `PersistentLogger`. -/
structure StorageRecord where
  taskId : Option String := none
  taskBlobId : Option String := none
  traceBlobId : Option String := none
  storedAt : Option Nat := none
  errors : List StorageErrorEntry := []
deriving Repr, DecidableEq

/-- State of a `PersistentLogger`: the inherited `ExecutionLogger` state
plus its configuration flags and storage record. -/
structure PLoggerState where
  base : LoggerState
  autoStore : Bool := true
  gracefulDegradation : Bool := true
  storage : StorageRecord := {}
deriving Repr, DecidableEq

/-- Value returned by `storeTask`/`storeTrace`: on success the walrus
client's result (its blob id), on swallowed failure the descriptor
`{success:false, error}`. -/
structure StoreResult where
  success : Bool
  blobId : Option String := none
  error : Option String := none
deriving Repr, DecidableEq

/-- `PersistentLogger.storeTask(taskId, goal, metadata)` (lines 288-321).
The underlying `this.walrus.storeTask` call is abstracted to the oracle
`walrus` (its blob id, or the thrown error's message). Object mutation
survives a throw, so the function returns the new state alongside the
outcome: on failure the error is pushed onto `storage.errors` first; then,
without graceful degradation, the wrapped error is thrown, and with it a
`{success:false, error}` descriptor is returned. -/
def storeTask (walrus : Except String String) (now : Nat) (taskId : String)
    (P : PLoggerState) : Except String StoreResult × PLoggerState :=
  match walrus with
  | .ok bid =>
    (.ok { success := true, blobId := some bid },
      { P with storage :=
        { P.storage with taskId := some taskId, taskBlobId := some bid } })
  | .error msg =>
    let P' := { P with storage := { P.storage with errors :=
        P.storage.errors ++ [⟨"storeTask", msg, now⟩] } }
    if P.gracefulDegradation then
      (.ok { success := false, error := some msg }, P')
    else
      (.error ("Failed to store task to Walrus: " ++ msg), P')

/-- `PersistentLogger.storeTrace(metadata)` (lines 329-368), with the
`this.walrus.storeTrace` call abstracted to the oracle `walrus` exactly as
in `storeTask`. On success it records the trace blob id and the store
time. -/
def storeTrace (walrus : Except String String) (now : Nat)
    (P : PLoggerState) : Except String StoreResult × PLoggerState :=
  match walrus with
  | .ok bid =>
    (.ok { success := true, blobId := some bid },
      { P with storage :=
        { P.storage with traceBlobId := some bid, storedAt := some now } })
  | .error msg =>
    let P' := { P with storage := { P.storage with errors :=
        P.storage.errors ++ [⟨"storeTrace", msg, now⟩] } }
    if P.gracefulDegradation then
      (.ok { success := false, error := some msg }, P')
    else
      (.error ("Failed to store trace to Walrus: " ++ msg), P')

/-- `PersistentLogger.logError(error, context)` (lines 426-437): run the
inherited `ExecutionLogger.logError`, then, when `autoStore` is on, attempt
`storeTrace`; otherwise return `null`. -/
def pLogError (walrus : Except String String) (now : Nat) (msg : String)
    (ctx : Option Step) (P : PLoggerState) :
    Except String (Option StoreResult) × PLoggerState :=
  let P' := { P with base := logError now msg ctx P.base }
  if P.autoStore then
    let (r, P'') := storeTrace walrus now P'
    (r.map some, P'')
  else
    (.ok none, P')

/-! ## BrowserController (`src/src/executor/browser.js`) -/

/-- Result object returned by the injected `browser` tool for the
`start`/`navigate`/`act` actions. -/
structure ToolResult where
  status : String := "ok"
  targetId : Option String := none
  tabId : Option String := none
deriving Repr, DecidableEq

/-- The `request` payload of an `act` tool call. -/
structure ActRequest where
  kind : String
  ref : String
  text : Option String := none
  doubleClick : Bool := false
  slowly : Bool := false
deriving Repr, DecidableEq

/-- Oracle for the module-injected `browser` tool: outcome of each kind of
tool call (`Except.error` is a rejection with that message). The snapshot
action returns the snapshot-shaped result directly. -/
structure BrowserTool where
  start : Except String ToolResult
  navigate : String → Except String ToolResult
  snapshot : Except String Snapshot
  act : ActRequest → Except String ToolResult

/-- The misuse error raised by `snapshot`/`click`/`type`/`fillForm` on a
session that has not been started. -/
def notStartedMsg : String := "Browser not started. Call start() or navigate() first."

/-- Stand-in for the `JSON.stringify(result)` fragments embedded in the
controller's error messages; only its presence matters to the claims. -/
def resultJson (r : ToolResult) : String := toString (repr r)

/-- Stand-in for `JSON.stringify` of a snapshot-shaped result. -/
def snapJson (s : Snapshot) : String := toString (repr s)

/-- Mutable state of a `BrowserController`: started flag and current tab. -/
structure BCState where
  isStarted : Bool := false
  currentTab : Option String := none
deriving Repr, DecidableEq

/-- `BrowserController.start` (lines 54-78): no-op when already started,
otherwise one `start` tool call; a non-ok result becomes a thrown
`Failed to start browser` error, and every throw is rewrapped as
`Browser start failed: <message>`. -/
def bcStart (tool : BrowserTool) (st : BCState) :
    Except String (ToolResult × BCState) :=
  if st.isStarted then
    .ok ({ status := "already_started" }, st)
  else
    match tool.start with
    | .ok r =>
      if r.status = "ok" then
        .ok (r, { st with isStarted := true })
      else
        .error ("Browser start failed: " ++
          ("Failed to start browser: " ++ resultJson r))
    | .error m => .error ("Browser start failed: " ++ m)

/-- `BrowserController.navigate(url, options)` (lines 89-116): start the
browser first when not yet started (a start failure propagates unwrapped),
then one `navigate` tool call; on an ok result the current tab becomes
`result.targetId || result.tabId`; other failures are rewrapped as
`Navigation error for <url>: <message>`. -/
def bcNavigate (tool : BrowserTool) (url : String) (st : BCState) :
    Except String (ToolResult × BCState) :=
  let started : Except String BCState :=
    if st.isStarted then .ok st else (bcStart tool st).map Prod.snd
  match started with
  | .error m => .error m
  | .ok st₁ =>
    match tool.navigate url with
    | .ok r =>
      if r.status = "ok" then
        .ok (r, { st₁ with currentTab := jsOr r.targetId r.tabId })
      else
        .error ("Navigation error for " ++
          (url ++ (": " ++ ("Navigation failed: " ++ resultJson r))))
    | .error m => .error ("Navigation error for " ++ (url ++ (": " ++ m)))

/-- `BrowserController.snapshot(options)` (lines 127-155): misuse error
when not started, otherwise one snapshot tool call with failures rewrapped
as `Snapshot error: <message>`. -/
def bcSnapshot (tool : BrowserTool) (st : BCState) : Except String Snapshot :=
  if st.isStarted = false then
    .error notStartedMsg
  else
    match tool.snapshot with
    | .ok r =>
      if r.status = "ok" then .ok r
      else .error ("Snapshot error: " ++ ("Snapshot failed: " ++ snapJson r))
    | .error m => .error ("Snapshot error: " ++ m)

/-- One attempt of the `click` retry loop (lines 213-239): snapshot,
resolve the selector, then one `act` tool call. -/
def bcClickAttempt (tool : BrowserTool) (st : BCState) (selector : String)
    (dbl : Bool) : Except String ToolResult :=
  match bcSnapshot tool st with
  | .error m => .error m
  | .ok snap =>
    match findElement selector snap with
    | none => .error ("Element not found: " ++ selector)
    | some ref =>
      match tool.act { kind := "click", ref := ref, doubleClick := dbl } with
      | .ok r =>
        if r.status = "ok" then .ok r
        else .error ("Click failed: " ++ resultJson r)
      | .error m => .error m

/-- The `click` retry loop (lines 212-251), unrolled on remaining attempts;
the `wait(500 * attempt)` between failed attempts is pure delay and is not
tracked. -/
def bcClickLoop (tool : BrowserTool) (st : BCState) (maxR : Nat)
    (selector : String) (dbl : Bool) :
    (remaining : Nat) → (attempt : Nat) → Option String → Except String ToolResult
  | 0, _, last =>
    .error ("Click failed after " ++ toString maxR ++ " attempts: " ++
      last.getD "null")
  | r + 1, attempt, _ =>
    match bcClickAttempt tool st selector dbl with
    | .ok res => .ok res
    | .error m => bcClickLoop tool st maxR selector dbl r (attempt + 1) (some m)

/-- `BrowserController.click(selector, options)` (lines 203-252). -/
def bcClick (tool : BrowserTool) (maxR : Nat) (selector : String) (dbl : Bool)
    (st : BCState) : Except String ToolResult :=
  if st.isStarted = false then
    .error notStartedMsg
  else
    bcClickLoop tool st maxR selector dbl maxR 1 none

/-- One attempt of the `type` retry loop (lines 274-310). -/
def bcTypeAttempt (tool : BrowserTool) (st : BCState) (selector text : String)
    (slowly : Bool) : Except String ToolResult :=
  match bcSnapshot tool st with
  | .error m => .error m
  | .ok snap =>
    match findElement selector snap with
    | none => .error ("Element not found: " ++ selector)
    | some ref =>
      let req : ActRequest :=
        { kind := "type", ref := ref, text := some text, slowly := slowly }
      match tool.act req with
      | .ok r =>
        if r.status = "ok" then .ok r
        else .error ("Type failed: " ++ resultJson r)
      | .error m => .error m

/-- The `type` retry loop (lines 274-313), unrolled on remaining attempts. -/
def bcTypeLoop (tool : BrowserTool) (st : BCState) (maxR : Nat)
    (selector text : String) (slowly : Bool) :
    (remaining : Nat) → (attempt : Nat) → Option String → Except String ToolResult
  | 0, _, last =>
    .error ("Type failed after " ++ toString maxR ++ " attempts: " ++
      last.getD "null")
  | r + 1, attempt, _ =>
    match bcTypeAttempt tool st selector text slowly with
    | .ok res => .ok res
    | .error m =>
      bcTypeLoop tool st maxR selector text slowly r (attempt + 1) (some m)

/-- `BrowserController.type(selector, text, options)` (lines 265-314). -/
def bcType (tool : BrowserTool) (maxR : Nat) (selector text : String)
    (slowly : Bool) (st : BCState) : Except String ToolResult :=
  if st.isStarted = false then
    .error notStartedMsg
  else
    bcTypeLoop tool st maxR selector text slowly maxR 1 none

/-- `BrowserController.fillForm(fields)` (lines 329-357): misuse error when
not started; otherwise type into each field in order, collecting successes
and per-field errors, never failing the whole call. -/
def bcFillForm (tool : BrowserTool) (maxR : Nat)
    (fields : List (String × String)) (st : BCState) :
    Except String FillFormResult :=
  if st.isStarted = false then
    .error notStartedMsg
  else
    let fin := fields.foldl
      (fun (acc : Nat × List FillFormError) fv =>
        match bcType tool maxR fv.1 fv.2 false st with
        | .ok _ => (acc.1 + 1, acc.2)
        | .error m => (acc.1, acc.2 ++ [⟨fv.1, m⟩]))
      (0, [])
    .ok { totalFields := fields.length, successful := fin.1,
          failed := fin.2.length, errors := fin.2 }

/-! ## ActionExecutor (`src/unnamed/part_001`) -/

/-- The browser controller an `ActionExecutor` drives
(`options.browserController` may inject any implementation): the outcome of
each operation the handlers call. -/
structure BrowserIface where
  navigate : String → Except String Unit
  click : String → Bool → Except String Unit
  type : String → String → Bool → Except String Unit
  fillForm : List (String × String) → Except String FillFormResult
  wait : Nat → Except String Unit
  snapshot : Except String Snapshot
  findElement : String → Snapshot → Option String

/-- Stand-in message for the JS `TypeError` raised when a handler
destructures an absent `step.params` (for example
`Cannot destructure property 'url' of 'params' as it is undefined`);
it is thrown inside `executeStep`'s try block and therefore contained. -/
def destructureMsg : String := "Cannot destructure parameters"

/-- `ActionExecutor.navigate(params)` (lines 187-207); the update of
`this.context.currentUrl` is not modelled (the context figures in no
claim). -/
def navigateH (br : BrowserIface) (params : Option StepParams) :
    Except String StepOutput :=
  match params with
  | none => .error destructureMsg
  | some p =>
    if strFalsy p.url then
      .error "Navigate: missing url parameter"
    else
      let url := p.url.getD ""
      match br.navigate url with
      | .error m => .error m
      | .ok _ => .ok { action := "navigate", output := "Navigated to " ++ url }

/-- `ActionExecutor.click(params)` (lines 218-235). -/
def clickH (br : BrowserIface) (params : Option StepParams) :
    Except String StepOutput :=
  match params with
  | none => .error destructureMsg
  | some p =>
    if strFalsy p.selector then
      .error "Click: missing selector parameter"
    else
      let sel := p.selector.getD ""
      match br.click sel p.doubleClick with
      | .error m => .error m
      | .ok _ => .ok { action := "click", output := "Clicked on " ++ sel }

/-- `ActionExecutor.type(params)` (lines 247-268): a falsy selector is
missing, but `text` is missing only when `undefined`/`null` (empty text is
allowed). -/
def typeH (br : BrowserIface) (params : Option StepParams) :
    Except String StepOutput :=
  match params with
  | none => .error destructureMsg
  | some p =>
    if strFalsy p.selector then
      .error "Type: missing selector parameter"
    else if p.text = none then
      .error "Type: missing text parameter"
    else
      let sel := p.selector.getD ""
      let tx := p.text.getD ""
      match br.type sel tx p.slowly with
      | .error m => .error m
      | .ok _ =>
        .ok { action := "type",
              output := "Typed \"" ++ tx ++ "\" into " ++ sel }

/-- `ActionExecutor.fillForm(params)` (lines 278-299): missing `fields` is
a local validation error; a partial fill (`result.failed > 0`) is turned
into a thrown error listing the failed selectors. -/
def fillFormH (br : BrowserIface) (params : Option StepParams) :
    Except String StepOutput :=
  match params with
  | none => .error destructureMsg
  | some p =>
    match p.fields with
    | none => .error "Fill form: missing or invalid fields parameter"
    | some fields =>
      match br.fillForm fields with
      | .error m => .error m
      | .ok r =>
        if r.failed > 0 then
          let sels := String.intercalate ", " (r.errors.map (·.selector))
          .error ("Failed to fill " ++ toString r.failed ++ " fields: " ++ sels)
        else
          .ok { action := "fill_form",
                output := "Filled " ++ toString r.successful ++ " form fields" }

/-- `ActionExecutor.wait(params)` (lines 309-322): duration defaults to
1000 ms when absent. -/
def waitH (br : BrowserIface) (params : Option StepParams) :
    Except String StepOutput :=
  match params with
  | none => .error destructureMsg
  | some p =>
    let duration := p.duration.getD 1000
    match br.wait duration with
    | .error m => .error m
    | .ok _ =>
      .ok { action := "wait",
            output := "Waited " ++ toString duration ++ "ms" }

/-- JS dynamic property read `elemData[attr]` for the known element
fields. -/
def getAttr (ed : ElementDescriptor) (attr : String) : Option String :=
  if attr = "role" then ed.role
  else if attr = "name" then ed.name
  else if attr = "label" then ed.label
  else if attr = "value" then ed.value
  else if attr = "text" then ed.text
  else if attr = "placeholder" then ed.placeholder
  else none

/-- The value `extractData` reads from a matched element:
`params.attribute ? elemData[attr] || elemData.value || elemData.text
: elemData.text || elemData.value || elemData.name` (JS `||`, so empty
strings are skipped). -/
def extractValue (attr : Option String) (ed : ElementDescriptor) :
    Option String :=
  if strFalsy attr then
    jsOr ed.text (jsOr ed.value ed.name)
  else
    jsOr (getAttr ed (attr.getD "")) (jsOr ed.value ed.text)

/-- JS object assignment `obj[k] = v`: overwrite an existing key in place,
else append the new binding. -/
def objSet (m : List (String × Option String)) (k : String) (v : Option String) :
    List (String × Option String) :=
  if m.any (fun p => p.1 = k) then
    m.map (fun p => if p.1 = k then (k, v) else p)
  else
    m ++ [(k, v)]

/-- Extraction of one selector inside `extractData` (lines 370-397): a
resolved element whose ref is present in the snapshot yields its extracted
value, anything else yields `null`. -/
def extractOne (br : BrowserIface) (snap : Snapshot) (attr : Option String)
    (acc : List (String × Option String)) (sel : String) :
    List (String × Option String) :=
  match br.findElement sel snap with
  | some ref =>
    match lookupKey ref snap.elements with
    | some ed => objSet acc sel (extractValue attr ed)
    | none => objSet acc sel none
  | none => objSet acc sel none

/-- `ActionExecutor.extractData(step)` (lines 354-409): snapshot, extract
the single `selector` (when truthy) and then each of `selectors`; the
merge into `this.context` is not modelled (the context figures in no
claim). -/
def extractH (br : BrowserIface) (params : Option StepParams) :
    Except String StepOutput :=
  match params with
  | none => .error "Extract: missing params"
  | some p =>
    match br.snapshot with
    | .error m => .error m
    | .ok snap =>
      let ex1 : List (String × Option String) :=
        if strFalsy p.selector then []
        else extractOne br snap p.attr [] (p.selector.getD "")
      let ex2 :=
        match p.selectors with
        | some sels => sels.foldl (extractOne br snap p.attr) ex1
        | none => ex1
      let n := ex2.length
      .ok { action := "extract",
            output := "Extracted " ++ toString n ++ " data points",
            extracted := ex2 }

/-- `ActionExecutor.snapshot(params)` (lines 331-342). -/
def snapshotH (br : BrowserIface) : Except String StepOutput :=
  match br.snapshot with
  | .error m => .error m
  | .ok r =>
    .ok { action := "snapshot", output := "Snapshot captured", snap := some r }

/-- `ActionExecutor.submit(params)` (lines 420-434): with a truthy selector
it delegates to the click handler on the same params; otherwise it is a
missing-selector validation error (the `pressEnter` branch only logs). -/
def submitH (br : BrowserIface) (params : Option StepParams) :
    Except String StepOutput :=
  match params with
  | none => .error destructureMsg
  | some p =>
    if strFalsy p.selector = false then
      clickH br params
    else
      .error "Submit: missing selector parameter"

/-- `ActionExecutor.select(params)` (lines 445-471): click the dropdown,
wait, type the value, wait. -/
def selectH (br : BrowserIface) (params : Option StepParams) :
    Except String StepOutput :=
  match params with
  | none => .error destructureMsg
  | some p =>
    if strFalsy p.selector then
      .error "Select: missing selector parameter"
    else if strFalsy p.value then
      .error "Select: missing value parameter"
    else
      let sel := p.selector.getD ""
      let v := p.value.getD ""
      match br.click sel false with
      | .error m => .error m
      | .ok _ =>
        match br.wait 200 with
        | .error m => .error m
        | .ok _ =>
          match br.type sel v false with
          | .error m => .error m
          | .ok _ =>
            match br.wait 200 with
            | .error m => .error m
            | .ok _ =>
              .ok { action := "select",
                    output := "Selected \"" ++ v ++ "\" from " ++ sel }

/-- The `switch (step.type)` dispatch inside `executeStep`'s try block
(lines 70-109); an unrecognized kind throws `Unknown action type`. -/
def runHandler (br : BrowserIface) (step : Step) (ty : String) :
    Except String StepOutput :=
  if ty = "navigate" then navigateH br step.params
  else if ty = "click" then clickH br step.params
  else if ty = "type" then typeH br step.params
  else if ty = "fill_form" then fillFormH br step.params
  else if ty = "wait" then waitH br step.params
  else if ty = "extract" then extractH br step.params
  else if ty = "snapshot" then snapshotH br
  else if ty = "submit" then submitH br step.params
  else if ty = "select" then selectH br step.params
  else .error ("Unknown action type: " ++ ty)

/-- `ActionExecutor.executeStep(step)` (lines 57-148). The guard
`if (!step || !step.type) throw` sits before the try block, so a step
with a falsy `type` throws out of the call; everything else is caught and
converted into a `StepResult`. When a logger is attached, success logs the
step once; failure logs the step with a `null` result and then calls
`logError` with the step as context. The logger's state is threaded and
returned beside the result. -/
def executeStep (br : BrowserIface) (now : Nat) (step : Step)
    (logger : Option LoggerState) :
    Except String (StepResult × Option LoggerState) :=
  match jsOr step.type none with
  | none => .error "Invalid step: missing type"
  | some ty =>
    match runHandler br step ty with
    | .ok out =>
      .ok ({ success := true, status := "success", result := some out,
             step := step },
           logger.map (logStep now step (some out) "success" (some out.output)))
    | .error msg =>
      .ok ({ success := false, status := "error", error := some msg,
             step := step },
           logger.map (fun L =>
             logError now msg (some step) (logStep now step none "error" none L)))

/-- Aggregate object returned by `executeSteps`. -/
structure ExecSummary where
  totalSteps : Nat
  successful : Nat
  failed : Nat
  completed : Bool
  results : List StepResult
deriving Repr, DecidableEq

/-- The `for` loop of `executeSteps` (lines 160-168): run each step in
order, pushing its result; a failing result without `continueOnError`
breaks out with the failed flag set. Returns the collected results, the
flag and the threaded logger state. -/
def executeStepsGo (br : BrowserIface) (now : Nat) :
    Option LoggerState → List Step →
      Except String (List StepResult × Bool × Option LoggerState)
  | logger, [] => .ok ([], false, logger)
  | logger, step :: rest =>
    match executeStep br now step logger with
    | .error m => .error m
    | .ok (r, logger') =>
      if r.success = false ∧ step.continueOnError = false then
        .ok ([r], true, logger')
      else
        match executeStepsGo br now logger' rest with
        | .error m => .error m
        | .ok (rs, flag, logger'') => .ok (r :: rs, flag, logger'')

/-- `ActionExecutor.executeSteps(steps)` (lines 156-177). -/
def executeSteps (br : BrowserIface) (now : Nat) (logger : Option LoggerState)
    (steps : List Step) : Except String (ExecSummary × Option LoggerState) :=
  match executeStepsGo br now logger steps with
  | .error m => .error m
  | .ok (results, flag, logger') =>
    .ok ({ totalSteps := steps.length
           successful := (results.filter (fun r => r.success)).length
           failed := (results.filter (fun r => r.success = false)).length
           completed := !flag
           results := results }, logger')

/-- A browser controller whose every operation succeeds trivially; used to
evaluate the executor on concrete inputs. -/
def trivialBrowser : BrowserIface :=
  { navigate := fun _ => .ok ()
    click := fun _ _ => .ok ()
    type := fun _ _ _ => .ok ()
    fillForm := fun _ => .ok {}
    wait := fun _ => .ok ()
    snapshot := .ok {}
    findElement := findElement }

/-- A browser tool oracle whose every call succeeds with an ok result. -/
def trivialTool : BrowserTool :=
  { start := .ok { status := "ok" }
    navigate := fun _ => .ok { status := "ok", targetId := some "tab1" }
    snapshot := .ok { status := "ok" }
    act := fun _ => .ok { status := "ok" } }

/-- A concrete wait step (used by concrete witnesses). -/
def wait50 : Step := { type := some "wait", params := some { duration := some 50 } }

/-- A concrete step of unknown kind (used by concrete witnesses). -/
def unknownStep : Step := { type := some "bogus_kind" }

/-! ## Claim C2 — element-resolution precedence -/

theorem findByNameLabelValue_eq_find (sel : String) :
    ∀ es : List (String × ElementDescriptor),
      findByNameLabelValue sel es =
        (es.find? (fun p => nlvMatch sel p.2)).map Prod.fst
  | [] => rfl
  | (k, e) :: rest => by
    by_cases h : nlvMatch sel e
    · simp [findByNameLabelValue, List.find?_cons_of_pos, h]
    · simp only [findByNameLabelValue, h, if_neg, Bool.not_eq_true]
      rw [List.find?_cons_of_neg _ (by simpa using h)]
      exact findByNameLabelValue_eq_find sel rest

theorem findByText_eq_find (sel : String) :
    ∀ es : List (String × ElementDescriptor),
      findByText sel es =
        (es.find? (fun p => containsCI p.2.text sel)).map Prod.fst
  | [] => rfl
  | (k, e) :: rest => by
    by_cases h : containsCI e.text sel
    · simp [findByText, List.find?_cons_of_pos, h]
    · simp only [findByText, h, if_neg, Bool.not_eq_true]
      rw [List.find?_cons_of_neg _ (by simpa using h)]
      exact findByText_eq_find sel rest

/-- C2 counterexample: the claim says a target that is not a key of
`snapshot.elements` and matches no element heuristically resolves to
not-found, but a target starting with `aria-` is returned as its own
reference even against an empty snapshot. -/
theorem findElement_aria_shortcut_cex :
    findElement "aria-ghost" { elements := [] } = some "aria-ghost" ∧
      lookupKey "aria-ghost" ([] : List (String × ElementDescriptor)) = none ∧
      findElement "aria-ghost" { elements := [] } ≠ none := by
  refine ⟨rfl, rfl, by decide⟩

/-- C2 (amended): element resolution follows the stated precedence, except
that a target starting with `aria-` is also returned immediately as its own
reference (even when absent from `snapshot.elements`): exact key presence or
an `aria-` prefix returns the target itself; otherwise the first element in
insertion order whose name/label/value contains the target
case-insensitively; otherwise the first whose text contains it; otherwise
not-found. -/
theorem findElement_precedence (sel : String) (snap : Snapshot) :
    findElement sel snap =
      if strStartsWith sel "aria-" || (lookupKey sel snap.elements).isSome then
        some sel
      else
        match snap.elements.find? (fun p => nlvMatch sel p.2) with
        | some p => some p.1
        | none =>
          (snap.elements.find? (fun p => containsCI p.2.text sel)).map Prod.fst := by
  rw [findElement]
  by_cases h : strStartsWith sel "aria-" || (lookupKey sel snap.elements).isSome
  · simp [h]
  · simp only [h, if_false, Bool.false_eq_true]
    rw [findByNameLabelValue_eq_find, findByText_eq_find]
    cases snap.elements.find? (fun p => nlvMatch sel p.2) <;> simp

/-! ## Claim C5 — endTime stamping in setState -/

/-- A concrete recorder that already carries an `endTime` stamp. -/
def c5Logger : LoggerState :=
  { sessionId := "s"
    state := "completed"
    trace := { sessionId := "s", startTime := 0, endTime := some 5 } }

/-- C5 counterexample: the claim says `setState(COMPLETED)` leaves an
already-stamped `endTime` unchanged, but on a recorder stamped at time 5 a
second `setState(COMPLETED)` at time 7 overwrites the stamp with 7. -/
theorem setState_overwrites_endTime_cex :
    c5Logger.trace.endTime = some 5 ∧
      (setState 7 "completed" c5Logger).map (fun L => L.trace.endTime) =
        .ok (some 7) :=
  ⟨rfl, rfl⟩

/-- C5 (amended): `setState(COMPLETED)` and `setState(FAILED)` always stamp
`endTime` with the current time — overwriting any existing stamp — and so
always leave it non-null, while `setState(PLANNING)` and
`setState(EXECUTING)` never touch `endTime`. -/
theorem setState_endTime (now : Nat) (L : LoggerState) :
    (setState now "completed" L).map (fun x => x.trace.endTime) =
        .ok (some now) ∧
      (setState now "failed" L).map (fun x => x.trace.endTime) =
        .ok (some now) ∧
      (setState now "planning" L).map (fun x => x.trace.endTime) =
        .ok L.trace.endTime ∧
      (setState now "executing" L).map (fun x => x.trace.endTime) =
        .ok L.trace.endTime :=
  ⟨rfl, rfl, rfl, rfl⟩

/-! ## Claim C6 — logStep appends exactly one indexed entry -/

/-- The index-equals-position invariant on a list of step-log entries. -/
def IndexInv (steps : List StepLogEntry) : Prop :=
  ∀ j (h : j < steps.length), (steps.get ⟨j, h⟩).stepIndex = j

/-- C6: every `logStep` call appends exactly one entry whose `stepIndex` is
the prior `steps.length`, leaves all prior entries untouched (the new list
extends the old one), grows the length by exactly 1, and preserves the
invariant that each entry's index equals its position. -/
theorem logStep_appends (now : Nat) (step : Step) (result : Option StepOutput)
    (status : String) (output : Option String) (L : LoggerState) :
    (logStep now step result status output L).trace.steps =
        L.trace.steps ++
          [mkStepLogEntry now step result status output L.trace.steps.length] ∧
      (logStep now step result status output L).trace.steps.length =
        L.trace.steps.length + 1 ∧
      (mkStepLogEntry now step result status output
          L.trace.steps.length).stepIndex = L.trace.steps.length ∧
      (IndexInv L.trace.steps →
        IndexInv (logStep now step result status output L).trace.steps) := by
  refine ⟨rfl, by simp [logStep], rfl, ?_⟩
  intro hInv j h
  have hlen : (logStep now step result status output L).trace.steps.length =
      L.trace.steps.length + 1 := by simp [logStep]
  show (((L.trace.steps ++
      [mkStepLogEntry now step result status output L.trace.steps.length]).get
        ⟨j, _⟩)).stepIndex = j
  rcases Nat.lt_or_ge j L.trace.steps.length with hj | hj
  · rw [List.get_eq_getElem, List.getElem_append_left hj]
    exact hInv j hj
  · have hj' : j = L.trace.steps.length := by
      have := h
      rw [hlen] at this
      omega
    subst hj'
    simp [List.get_eq_getElem, List.getElem_append_right, mkStepLogEntry]

/-- C6 witness: applied to a fresh recorder, the appended entry sits at
index 0 and the invariant holds afterwards. -/
theorem logStep_appends_witness :
    (logStep 3 wait50 none "success" none (initLogger "s" 0)).trace.steps =
        [mkStepLogEntry 3 wait50 none "success" none 0] ∧
      IndexInv (logStep 3 wait50 none "success" none (initLogger "s" 0)).trace.steps := by
  have h := logStep_appends 3 wait50 none "success" none (initLogger "s" 0)
  refine ⟨h.1, h.2.2.2 ?_⟩
  intro j hj
  simp [initLogger] at hj

/-! ## Claim C8 — graceful degradation of storeTask / storeTrace -/

/-- C8: when the underlying walrus store call fails with message `msg`,
`storeTask` and `storeTrace` with graceful degradation enabled return the
non-throwing descriptor `{success:false, error:msg}` and append exactly one
entry to `StorageRecord.errors`; with graceful degradation disabled they
throw the wrapped failure to the caller. -/
theorem store_graceful_degradation (now : Nat) (taskId msg : String)
    (P : PLoggerState) :
    (P.gracefulDegradation = true →
      (storeTask (.error msg) now taskId P).1 =
          .ok { success := false, error := some msg } ∧
        (storeTask (.error msg) now taskId P).2.storage.errors.length =
          P.storage.errors.length + 1 ∧
        (storeTrace (.error msg) now P).1 =
          .ok { success := false, error := some msg } ∧
        (storeTrace (.error msg) now P).2.storage.errors.length =
          P.storage.errors.length + 1) ∧
      (P.gracefulDegradation = false →
        (storeTask (.error msg) now taskId P).1 =
            .error ("Failed to store task to Walrus: " ++ msg) ∧
          (storeTrace (.error msg) now P).1 =
            .error ("Failed to store trace to Walrus: " ++ msg)) := by
  constructor <;> intro h <;>
    simp [storeTask, storeTrace, h]

/-- A fresh persistent logger with graceful degradation enabled. -/
def pGraceful : PLoggerState := { base := initLogger "s" 0 }

/-- A fresh persistent logger with graceful degradation disabled. -/
def pStrict : PLoggerState :=
  { base := initLogger "s" 0, gracefulDegradation := false }

/-- C8 witness: a concrete failing store call against a fresh graceful
logger returns the failure descriptor with one recorded error, and against
a strict logger throws. -/
theorem store_graceful_degradation_witness :
    (storeTask (.error "network down") 9 "task1" pGraceful).1 =
        .ok { success := false, error := some "network down" } ∧
      (storeTask (.error "network down") 9 "task1" pGraceful).2.storage.errors.length =
        0 + 1 ∧
      (storeTask (.error "network down") 9 "task1" pStrict).1 =
        .error ("Failed to store task to Walrus: " ++ "network down") := by
  have hg := (store_graceful_degradation 9 "task1" "network down" pGraceful).1 rfl
  have hs := (store_graceful_degradation 9 "task1" "network down" pStrict).2 rfl
  exact ⟨hg.1, hg.2.1, hs.1⟩

/-! ## Claim C7 — fetchWithRetry retry policy -/

theorem fetchLoop_allErr (cfg : WalrusCfg) (outs : Nat → FetchOutcome)
    (m : Nat → String)
    (houts : ∀ j, 1 ≤ j → j ≤ cfg.maxRetries → outs j = .err (m j)) :
    ∀ rem a last, 1 ≤ a → 1 ≤ rem → a + rem = cfg.maxRetries + 1 →
      fetchLoop cfg outs rem a last =
        (.error ("Request failed after " ++ toString cfg.maxRetries ++
            " attempts: " ++ m cfg.maxRetries),
          (List.range' (a - 1) (rem - 1)).map
            (fun i => cfg.retryDelay * 2 ^ i)) := by
  intro rem
  induction rem with
  | zero => intro a last h1 h2 h3; omega
  | succ r ih =>
    intro a last h1 _ h3
    have ha : a ≤ cfg.maxRetries := by omega
    rw [fetchLoop, houts a h1 ha]
    dsimp only
    by_cases hlt : a < cfg.maxRetries
    · obtain ⟨t, rfl⟩ : ∃ t, r = t + 1 := ⟨r - 1, by omega⟩
      rw [if_pos hlt, ih (a + 1) (some (m a)) (by omega) (by omega) (by omega)]
      have hsub : a + 1 - 1 = (a - 1) + 1 := by omega
      simp only [Nat.add_sub_cancel, hsub, List.range'_succ, List.map_cons]
    · have hr0 : r = 0 := by omega
      have haeq : a = cfg.maxRetries := by omega
      subst hr0
      rw [if_neg hlt, fetchLoop]
      simp [haeq]

theorem fetchLoop_abort (cfg : WalrusCfg) (outs : Nat → FetchOutcome)
    (k : Nat) (m : Nat → String)
    (houts : ∀ j, 1 ≤ j → j < k → outs j = .err (m j))
    (habort : outs k = .abort) (hk : k ≤ cfg.maxRetries) :
    ∀ rem a last, 1 ≤ a → a ≤ k → a + rem = cfg.maxRetries + 1 →
      fetchLoop cfg outs rem a last =
        (.error ("Request timeout after " ++ toString cfg.timeout ++ "ms"),
          (List.range' (a - 1) (k - a)).map
            (fun i => cfg.retryDelay * 2 ^ i)) := by
  intro rem
  induction rem with
  | zero => intro a last h1 h2 h3; omega
  | succ r ih =>
    intro a last h1 h2 h3
    rw [fetchLoop]
    by_cases hak : a = k
    · subst hak
      rw [habort]
      simp [Nat.sub_self]
    · have halt : a < k := by omega
      rw [houts a h1 halt]
      dsimp only
      have hlt : a < cfg.maxRetries := by omega
      rw [if_pos hlt, ih (a + 1) (some (m a)) (by omega) (by omega) (by omega)]
      obtain ⟨t, ht⟩ : ∃ t, k - a = t + 1 := ⟨k - a - 1, by omega⟩
      have ht' : k - (a + 1) = t := by omega
      have hsub : a + 1 - 1 = (a - 1) + 1 := by omega
      rw [ht', ht, hsub, List.range'_succ]
      simp only [List.map_cons]

/-- C7: in `fetchWithRetry`, a per-attempt timeout abort is non-retryable
and fails the call immediately with the timeout error (first conjunct: if
attempts `1..k-1` fail without timeout and attempt `k` aborts, the call
raises `Request timeout after <timeout>ms` having slept only the `k-1`
exponential delays `retryDelay * 2^(attempt-1)`); and every non-timeout
failure before the last attempt is followed by exactly that exponential
wait, exhaustion of all `maxRetries` attempts raising an error carrying the
last failure's message and the attempt count (second conjunct). -/
theorem fetchWithRetry_policy (cfg : WalrusCfg) (outs : Nat → FetchOutcome)
    (hmax : 1 ≤ cfg.maxRetries) :
    (∀ (k : Nat) (m : Nat → String), 1 ≤ k → k ≤ cfg.maxRetries →
      (∀ j, 1 ≤ j → j < k → outs j = .err (m j)) → outs k = .abort →
      fetchWithRetry cfg outs =
        (.error ("Request timeout after " ++ toString cfg.timeout ++ "ms"),
          (List.range (k - 1)).map (fun i => cfg.retryDelay * 2 ^ i))) ∧
      (∀ m : Nat → String,
        (∀ j, 1 ≤ j → j ≤ cfg.maxRetries → outs j = .err (m j)) →
        fetchWithRetry cfg outs =
          (.error ("Request failed after " ++ toString cfg.maxRetries ++
              " attempts: " ++ m cfg.maxRetries),
            (List.range (cfg.maxRetries - 1)).map
              (fun i => cfg.retryDelay * 2 ^ i))) := by
  constructor
  · intro k m hk1 hk2 houts habort
    rw [fetchWithRetry,
      fetchLoop_abort cfg outs k m houts habort hk2 cfg.maxRetries 1 none
        le_rfl hk1 (by omega)]
    rw [List.range_eq_range']
  · intro m houts
    rw [fetchWithRetry,
      fetchLoop_allErr cfg outs m houts cfg.maxRetries 1 none le_rfl hmax
        (by omega)]
    rw [List.range_eq_range']

/-- Attempt outcomes that always fail with a transient error. -/
def alwaysErr (j : Nat) : FetchOutcome := .err ("E" ++ toString j)

/-- Attempt outcomes that fail transiently once, then time out. -/
def abortSecond (j : Nat) : FetchOutcome :=
  if j = 2 then .abort else .err "E1"

/-- C7 witness: with the default configuration (3 retries, 1000 ms base
delay, 30000 ms timeout), three transient failures wait 1000 ms then
2000 ms and raise the aggregate error carrying the last message, while an
abort on attempt 2 fails immediately after the single 1000 ms wait. -/
theorem fetchWithRetry_policy_witness :
    fetchWithRetry {} alwaysErr =
        (.error "Request failed after 3 attempts: E3", [1000, 2000]) ∧
      fetchWithRetry {} abortSecond =
        (.error "Request timeout after 30000ms", [1000]) := by
  have h1 := (fetchWithRetry_policy {} alwaysErr (by decide)).2
    (fun j => "E" ++ toString j) (fun j _ _ => rfl)
  have h2 := (fetchWithRetry_policy {} abortSecond (by decide)).1 2
    (fun _ => "E1") (by decide) (by decide)
    (fun j hj1 hj2 => by
      have : j = 1 := by omega
      subst this
      rfl)
    rfl
  constructor
  · rw [h1]; rfl
  · rw [h2]; rfl

/-! ## Claim C10 — implicit start in navigate vs misuse errors elsewhere -/

theorem prefixed_ne (p rest t : String)
    (h : t.data.take p.data.length ≠ p.data) : p ++ rest ≠ t := by
  intro he
  apply h
  have hd : p.data ++ rest.data = t.data := congrArg String.data he
  rw [← hd, List.take_left]

theorem browserStartFailed_ne (m : String) :
    "Browser start failed: " ++ m ≠ notStartedMsg :=
  prefixed_ne _ _ _ (by decide)

theorem navError_ne (u m : String) :
    "Navigation error for " ++ (u ++ (": " ++ m)) ≠ notStartedMsg :=
  prefixed_ne _ _ _ (by decide)

theorem bcNavigate_notStarted_cases (tool : BrowserTool) (url : String)
    (st : BCState) (hns : st.isStarted = false) :
    (∃ m, bcNavigate tool url st = .error ("Browser start failed: " ++ m)) ∨
      (∃ m, bcNavigate tool url st =
        .error ("Navigation error for " ++ (url ++ (": " ++ m)))) ∨
      (∃ r st', bcNavigate tool url st = .ok (r, st') ∧
        st'.isStarted = true) := by
  rw [bcNavigate, bcStart, hns]
  simp only [Bool.false_eq_true, if_false]
  cases hstart : tool.start with
  | error m =>
    left
    exact ⟨m, rfl⟩
  | ok r =>
    dsimp only
    by_cases hr : r.status = "ok"
    · rw [if_pos hr]
      dsimp only [Except.map]
      cases hnav : tool.navigate url with
      | error m =>
        right; left
        exact ⟨m, rfl⟩
      | ok rn =>
        dsimp only
        by_cases hrn : rn.status = "ok"
        · right; right
          refine ⟨rn,
            { isStarted := true, currentTab := jsOr rn.targetId rn.tabId },
            ?_, rfl⟩
          rw [if_pos hrn]
        · right; left
          refine ⟨"Navigation failed: " ++ resultJson rn, ?_⟩
          rw [if_neg hrn]
    · left
      refine ⟨"Failed to start browser: " ++ resultJson r, ?_⟩
      rw [if_neg hr]
      rfl

/-- C10: `navigate` on a not-started session never raises the
`Browser not started` misuse error — it implicitly starts the browser, so a
successful navigate leaves the session started — whereas `snapshot`,
`click`, `type` and `fillForm` on a not-started session all raise exactly
that misuse error. -/
theorem navigate_implicit_start (tool : BrowserTool) (maxR : Nat)
    (url : String) (st : BCState) (hns : st.isStarted = false) :
    (∀ e, bcNavigate tool url st = .error e → e ≠ notStartedMsg) ∧
      (∀ r st', bcNavigate tool url st = .ok (r, st') →
        st'.isStarted = true) ∧
      bcSnapshot tool st = .error notStartedMsg ∧
      (∀ sel dbl, bcClick tool maxR sel dbl st = .error notStartedMsg) ∧
      (∀ sel tx sl, bcType tool maxR sel tx sl st = .error notStartedMsg) ∧
      (∀ fields, bcFillForm tool maxR fields st = .error notStartedMsg) := by
  have hc := bcNavigate_notStarted_cases tool url st hns
  refine ⟨?_, ?_, ?_, ?_, ?_, ?_⟩
  · intro e he
    rcases hc with ⟨m, hm⟩ | ⟨m, hm⟩ | ⟨r, st', hm, _⟩
    · rw [hm] at he
      injection he with he'
      rw [← he']
      exact browserStartFailed_ne m
    · rw [hm] at he
      injection he with he'
      rw [← he']
      exact navError_ne url m
    · rw [hm] at he
      cases he
  · intro r st' he
    rcases hc with ⟨m, hm⟩ | ⟨m, hm⟩ | ⟨r₀, st₀, hm, hst₀⟩
    · rw [hm] at he; cases he
    · rw [hm] at he; cases he
    · rw [hm] at he
      injection he with he'
      injection he' with he₁ he₂
      rw [← he₂]
      exact hst₀
  · simp [bcSnapshot, hns]
  · intro sel dbl
    simp [bcClick, hns]
  · intro sel tx sl
    simp [bcType, hns]
  · intro fields
    simp [bcFillForm, hns]

/-- C10 witness: on the all-ok tool oracle and a fresh (not-started)
controller state, navigate succeeds and leaves the session started, while
snapshot/click/type/fillForm all raise the misuse error. -/
theorem navigate_implicit_start_witness :
    bcNavigate trivialTool "https://ex.com" {} =
        .ok ({ status := "ok", targetId := some "tab1" },
             { isStarted := true, currentTab := some "tab1" }) ∧
      ({ isStarted := true, currentTab := some "tab1" } : BCState).isStarted =
        true ∧
      bcSnapshot trivialTool {} = .error notStartedMsg ∧
      bcClick trivialTool 3 "button" false {} = .error notStartedMsg ∧
      bcType trivialTool 3 "field" "hello" false {} = .error notStartedMsg ∧
      bcFillForm trivialTool 3 [("field", "v")] {} = .error notStartedMsg := by
  have h := navigate_implicit_start trivialTool 3 "https://ex.com" {} rfl
  exact ⟨rfl, h.2.1 _ _ rfl, h.2.2.1, h.2.2.2.1 "button" false,
    h.2.2.2.2.1 "field" "hello" false, h.2.2.2.2.2 [("field", "v")]⟩

/-! ## Claims C1, C3, C4, C9 — ActionExecutor -/

/-- The nine action kinds recognized by the executor's dispatch switch. -/
def knownKinds : List String :=
  ["navigate", "click", "type", "fill_form", "wait", "extract", "snapshot",
   "submit", "select"]

theorem executeStep_handler_ok (br : BrowserIface) (now : Nat) (step : Step)
    (logger : Option LoggerState) (ty : String) (out : StepOutput)
    (hty : jsOr step.type none = some ty)
    (hrun : runHandler br step ty = .ok out) :
    executeStep br now step logger =
      .ok ({ success := true, status := "success", result := some out,
             step := step },
        logger.map (logStep now step (some out) "success" (some out.output))) := by
  rw [executeStep, hty]
  dsimp only
  rw [hrun]

theorem executeStep_handler_err (br : BrowserIface) (now : Nat) (step : Step)
    (logger : Option LoggerState) (ty msg : String)
    (hty : jsOr step.type none = some ty)
    (hrun : runHandler br step ty = .error msg) :
    executeStep br now step logger =
      .ok ({ success := false, status := "error", error := some msg,
             step := step },
        logger.map (fun L =>
          logError now msg (some step) (logStep now step none "error" none L))) := by
  rw [executeStep, hty]
  dsimp only
  rw [hrun]

theorem executeStep_ok_inv (br : BrowserIface) (now : Nat) (step : Step)
    (logger : Option LoggerState) (r : StepResult) (lg : Option LoggerState)
    (h : executeStep br now step logger = .ok (r, lg)) :
    r.step = step ∧
      ((r.success = true ∧ r.status = "success") ∨
        (r.success = false ∧ r.status = "error" ∧ ∃ m, r.error = some m)) := by
  rw [executeStep] at h
  cases hty : jsOr step.type none with
  | none =>
    rw [hty] at h
    cases h
  | some ty =>
    rw [hty] at h
    dsimp only at h
    cases hrun : runHandler br step ty with
    | ok out =>
      rw [hrun] at h
      dsimp only at h
      simp only [Except.ok.injEq, Prod.mk.injEq] at h
      obtain ⟨h1, _⟩ := h
      rw [← h1]
      exact ⟨rfl, Or.inl ⟨rfl, rfl⟩⟩
    | error msg =>
      rw [hrun] at h
      dsimp only at h
      simp only [Except.ok.injEq, Prod.mk.injEq] at h
      obtain ⟨h1, _⟩ := h
      rw [← h1]
      exact ⟨rfl, Or.inr ⟨rfl, rfl, msg, rfl⟩⟩

theorem runHandler_unknown (br : BrowserIface) (step : Step) (ty : String)
    (hk : ty ∉ knownKinds) :
    runHandler br step ty = .error ("Unknown action type: " ++ ty) := by
  simp only [knownKinds, List.mem_cons, List.not_mem_nil, or_false,
    not_or] at hk
  obtain ⟨h1, h2, h3, h4, h5, h6, h7, h8, h9⟩ := hk
  rw [runHandler, if_neg h1, if_neg h2, if_neg h3, if_neg h4, if_neg h5,
    if_neg h6, if_neg h7, if_neg h8, if_neg h9]

/-- C1 counterexample: the claim quantifies over every step object, but a
step whose `type` is absent makes `executeStep` throw
`Invalid step: missing type` out of the call instead of returning a
`StepResult`. -/
theorem executeStep_missing_type_throws :
    executeStep trivialBrowser 0 { id := some "s0" } none =
      .error "Invalid step: missing type" := rfl

/-- C1 (amended): for every step whose `type` is present and non-empty,
`executeStep` never throws: it always returns a `StepResult`, a failing
result always carries `status:'error'` and an error message; an unknown
kind yields the message `Unknown action type: <kind>` and a missing
required parameter yields the kind-specific message (navigate/click/type
shown). A step without a truthy `type` instead throws
`Invalid step: missing type`. -/
theorem executeStep_failures_contained (br : BrowserIface) (now : Nat)
    (step : Step) (logger : Option LoggerState) (ty : String)
    (hty : jsOr step.type none = some ty) :
    (∃ r logger', executeStep br now step logger = .ok (r, logger')) ∧
      (∀ r logger', executeStep br now step logger = .ok (r, logger') →
        r.step = step ∧
          ((r.success = true ∧ r.status = "success") ∨
            (r.success = false ∧ r.status = "error" ∧ ∃ m, r.error = some m))) ∧
      (ty ∉ knownKinds →
        ∀ r logger', executeStep br now step logger = .ok (r, logger') →
          r.success = false ∧ r.status = "error" ∧
            r.error = some ("Unknown action type: " ++ ty)) ∧
      (∀ p, ty = "navigate" → step.params = some p → strFalsy p.url = true →
        ∀ r logger', executeStep br now step logger = .ok (r, logger') →
          r.success = false ∧ r.status = "error" ∧
            r.error = some "Navigate: missing url parameter") ∧
      (∀ p, ty = "click" → step.params = some p →
        strFalsy p.selector = true →
        ∀ r logger', executeStep br now step logger = .ok (r, logger') →
          r.success = false ∧ r.status = "error" ∧
            r.error = some "Click: missing selector parameter") ∧
      (∀ p, ty = "type" → step.params = some p →
        strFalsy p.selector = false → p.text = none →
        ∀ r logger', executeStep br now step logger = .ok (r, logger') →
          r.success = false ∧ r.status = "error" ∧
            r.error = some "Type: missing text parameter") := by
  refine ⟨?_, ?_, ?_, ?_, ?_, ?_⟩
  · cases hrun : runHandler br step ty with
    | ok out =>
      exact ⟨_, _, executeStep_handler_ok br now step logger ty out hty hrun⟩
    | error msg =>
      exact ⟨_, _, executeStep_handler_err br now step logger ty msg hty hrun⟩
  · intro r logger' h
    exact executeStep_ok_inv br now step logger r logger' h
  · intro hk r logger' h
    rw [executeStep_handler_err br now step logger ty _ hty
      (runHandler_unknown br step ty hk)] at h
    simp only [Except.ok.injEq, Prod.mk.injEq] at h
    obtain ⟨h1, _⟩ := h
    rw [← h1]
    exact ⟨rfl, rfl, rfl⟩
  · intro p hty' hp hurl r logger' h
    subst hty'
    have hrun : runHandler br step "navigate" =
        .error "Navigate: missing url parameter" := by
      rw [runHandler, if_pos rfl, navigateH.eq_def, hp]
      dsimp only
      rw [if_pos hurl]
    rw [executeStep_handler_err br now step logger _ _ hty hrun] at h
    simp only [Except.ok.injEq, Prod.mk.injEq] at h
    obtain ⟨h1, _⟩ := h
    rw [← h1]
    exact ⟨rfl, rfl, rfl⟩
  · intro p hty' hp hsel r logger' h
    subst hty'
    have hrun : runHandler br step "click" =
        .error "Click: missing selector parameter" := by
      rw [runHandler]
      rw [if_neg (by decide), if_pos rfl, clickH.eq_def, hp]
      dsimp only
      rw [if_pos hsel]
    rw [executeStep_handler_err br now step logger _ _ hty hrun] at h
    simp only [Except.ok.injEq, Prod.mk.injEq] at h
    obtain ⟨h1, _⟩ := h
    rw [← h1]
    exact ⟨rfl, rfl, rfl⟩
  · intro p hty' hp hsel htext r logger' h
    subst hty'
    have hrun : runHandler br step "type" =
        .error "Type: missing text parameter" := by
      rw [runHandler]
      rw [if_neg (by decide), if_neg (by decide), if_pos rfl, typeH.eq_def, hp]
      dsimp only
      rw [if_neg (by simp [hsel]), if_pos htext]
    rw [executeStep_handler_err br now step logger _ _ hty hrun] at h
    simp only [Except.ok.injEq, Prod.mk.injEq] at h
    obtain ⟨h1, _⟩ := h
    rw [← h1]
    exact ⟨rfl, rfl, rfl⟩

/-- The concrete failing result of executing `unknownStep`. -/
def c1Result : StepResult :=
  { success := false, status := "error",
    error := some ("Unknown action type: " ++ "bogus_kind"),
    step := unknownStep }

/-- C1 witness: the unknown-kind step is contained into the concrete error
result. -/
theorem executeStep_failures_contained_witness :
    c1Result.success = false ∧ c1Result.status = "error" ∧
      c1Result.error = some ("Unknown action type: " ++ "bogus_kind") :=
  (executeStep_failures_contained trivialBrowser 0 unknownStep none
    "bogus_kind" rfl).2.2.1 (by decide) c1Result none rfl

theorem executeStepsGo_spec (br : BrowserIface) (now : Nat) :
    ∀ (steps : List Step) (logger : Option LoggerState) (rs : List StepResult)
      (flag : Bool) (logger' : Option LoggerState),
      executeStepsGo br now logger steps = .ok (rs, flag, logger') →
      rs.length ≤ steps.length ∧
        (∀ j, j < rs.length → (rs[j]?).map StepResult.step = steps[j]?) ∧
        (∀ j rj stj, rs[j]? = some rj → steps[j]? = some stj →
          rj.success = false → stj.continueOnError = false →
          rs.length = j + 1 ∧ flag = true)
  | [], logger, rs, flag, logger' => by
    intro h
    rw [executeStepsGo] at h
    simp only [Except.ok.injEq, Prod.mk.injEq] at h
    obtain ⟨h1, h2, _⟩ := h
    subst h1
    subst h2
    refine ⟨Nat.le_refl 0, ?_, ?_⟩
    · intro j hj
      simp at hj
    · intro j rj stj hrj
      simp at hrj
  | step :: rest, logger, rs, flag, logger' => by
    intro h
    rw [executeStepsGo] at h
    cases hex : executeStep br now step logger with
    | error m =>
      rw [hex] at h
      cases h
    | ok pr =>
      obtain ⟨r, lg1⟩ := pr
      rw [hex] at h
      dsimp only at h
      have hstep : r.step = step :=
        (executeStep_ok_inv br now step logger r lg1 hex).1
      by_cases hcond : r.success = false ∧ step.continueOnError = false
      · rw [if_pos hcond] at h
        simp only [Except.ok.injEq, Prod.mk.injEq] at h
        obtain ⟨h1, h2, _⟩ := h
        subst h1
        subst h2
        refine ⟨by simp, ?_, ?_⟩
        · intro j hj
          have hj0 : j = 0 := by simpa using Nat.lt_one_iff.mp (by simpa using hj)
          subst hj0
          simp [hstep]
        · intro j rj stj hrj _ _ _
          cases j with
          | zero => exact ⟨rfl, rfl⟩
          | succ jj => simp at hrj
      · rw [if_neg hcond] at h
        cases hgo : executeStepsGo br now lg1 rest with
        | error m =>
          rw [hgo] at h
          cases h
        | ok tr =>
          obtain ⟨rs', flag', lg2⟩ := tr
          rw [hgo] at h
          dsimp only at h
          simp only [Except.ok.injEq, Prod.mk.injEq] at h
          obtain ⟨h1, h2, _⟩ := h
          subst h1
          subst h2
          obtain ⟨ih1, ih2, ih3⟩ :=
            executeStepsGo_spec br now rest lg1 rs' flag' lg2 hgo
          refine ⟨by simpa using Nat.succ_le_succ ih1, ?_, ?_⟩
          · intro j hj
            cases j with
            | zero => simp [hstep]
            | succ jj =>
              simp only [List.getElem?_cons_succ]
              exact ih2 jj (by simpa using hj)
          · intro j rj stj hrj hstj hfail hcont
            cases j with
            | zero =>
              simp only [List.getElem?_cons_zero, Option.some.injEq] at hrj hstj
              subst hrj
              subst hstj
              exact absurd ⟨hfail, hcont⟩ hcond
            | succ jj =>
              obtain ⟨hlen, hflag⟩ := ih3 jj rj stj (by simpa using hrj)
                (by simpa using hstj) hfail hcont
              exact ⟨by simp [hlen], hflag⟩

/-- C3: in any run of `executeSteps` that returns, if the result recorded
at index `i` is failing and the step at index `i` lacks `continueOnError`,
then execution stopped immediately: `results.length = i + 1`, `completed`
is false, and `results[j]` corresponds to `steps[j]` for every
`j < results.length`. -/
theorem executeSteps_stops_on_failure (br : BrowserIface) (now : Nat)
    (logger : Option LoggerState) (steps : List Step) (s : ExecSummary)
    (logger' : Option LoggerState) (i : Nat) (ri : StepResult) (sti : Step)
    (hex : executeSteps br now logger steps = .ok (s, logger'))
    (hri : s.results[i]? = some ri) (hsti : steps[i]? = some sti)
    (hfail : ri.success = false) (hcont : sti.continueOnError = false) :
    s.results.length = i + 1 ∧ s.completed = false ∧
      ∀ j, j < s.results.length →
        (s.results[j]?).map StepResult.step = steps[j]? := by
  rw [executeSteps] at hex
  cases hgo : executeStepsGo br now logger steps with
  | error m =>
    rw [hgo] at hex
    cases hex
  | ok tr =>
    obtain ⟨rs, flag, lg⟩ := tr
    rw [hgo] at hex
    dsimp only at hex
    simp only [Except.ok.injEq, Prod.mk.injEq] at hex
    obtain ⟨h1, _⟩ := hex
    subst h1
    obtain ⟨spec1, spec2, spec3⟩ :=
      executeStepsGo_spec br now steps logger rs flag lg hgo
    obtain ⟨hlen, hflag⟩ := spec3 i ri sti hri hsti hfail hcont
    refine ⟨hlen, ?_, spec2⟩
    show (!flag) = false
    rw [hflag]
    rfl

/-- The concrete failing result of the unknown-kind step in the C3 run. -/
def c3FailResult : StepResult :=
  { success := false, status := "error",
    error := some ("Unknown action type: " ++ "bogus_kind"),
    step := unknownStep }

/-- The summary of running `[unknownStep, wait50]`: stops after step 0. -/
def c3Summary : ExecSummary :=
  { totalSteps := 2, successful := 0, failed := 1, completed := false,
    results := [c3FailResult] }

/-- C3 witness: the concrete run `[unknownStep, wait50]` stops after the
failing first step with `completed = false`. -/
theorem executeSteps_stops_on_failure_witness :
    c3Summary.results.length = 0 + 1 ∧ c3Summary.completed = false := by
  have h := executeSteps_stops_on_failure trivialBrowser 0 none
    [unknownStep, wait50] c3Summary none 0 c3FailResult unknownStep
    rfl rfl rfl rfl rfl
  exact ⟨h.1, h.2.1⟩

/-- C4 counterexample: the claim quantifies over every step list, but a
list containing a step with no `type` makes `executeSteps` throw instead of
returning an object with a `totalSteps` field. -/
theorem executeSteps_throws_cex :
    executeSteps trivialBrowser 0 none [{ id := some "s0" }] =
      .error "Invalid step: missing type" := rfl

/-- C4 (amended): whenever `executeSteps(steps)` returns an object (does
not throw), its `totalSteps` field equals `steps.length`. -/
theorem executeSteps_totalSteps (br : BrowserIface) (now : Nat)
    (logger : Option LoggerState) (steps : List Step) (s : ExecSummary)
    (logger' : Option LoggerState)
    (h : executeSteps br now logger steps = .ok (s, logger')) :
    s.totalSteps = steps.length := by
  rw [executeSteps] at h
  cases hgo : executeStepsGo br now logger steps with
  | error m =>
    rw [hgo] at h
    cases h
  | ok tr =>
    obtain ⟨rs, flag, lg⟩ := tr
    rw [hgo] at h
    dsimp only at h
    simp only [Except.ok.injEq, Prod.mk.injEq] at h
    obtain ⟨h1, _⟩ := h
    subst h1
    rfl

/-- The summary of running the single-step list `[wait50]`. -/
def c4Summary : ExecSummary :=
  { totalSteps := 1, successful := 1, failed := 0, completed := true,
    results := [{ success := true, status := "success",
                  result := some { action := "wait", output := "Waited 50ms" },
                  step := wait50 }] }

/-- C4 witness: the concrete run of `[wait50]` reports one total step. -/
theorem executeSteps_totalSteps_witness :
    c4Summary.totalSteps = [wait50].length :=
  executeSteps_totalSteps trivialBrowser 0 none [wait50] c4Summary none rfl

/-- C9: whenever `executeStep` produces a failing result with a logger
attached, it logs the step with a `null` result and then calls `logError`
(first conjunct, which exhibits both calls and their order in the returned
logger state); `logError` unconditionally forces the recorder's state to
FAILED (second conjunct); on a `PersistentLogger` with `autoStore` enabled,
`logError` triggers a `storeTrace` attempt — observable as the recorded
trace blob id on success or the appended storage error on failure (third
conjunct); and when the failing step has `continueOnError` set, execution
of the remaining steps continues with that failed logger state (fourth
conjunct). -/
theorem failing_step_forces_failed_state (br : BrowserIface) (now : Nat)
    (step : Step) (ty msg : String) (L : LoggerState) (ctx : Option Step)
    (walrus : Except String String) (P : PLoggerState) (rest : List Step)
    (hty : jsOr step.type none = some ty)
    (hrun : runHandler br step ty = .error msg) :
    executeStep br now step (some L) =
      .ok ({ success := false, status := "error", error := some msg,
             step := step },
        some (logError now msg (some step)
          (logStep now step none "error" none L))) ∧
      (logError now msg ctx L).state = "failed" ∧
      (P.autoStore = true →
        (∀ bid, walrus = .ok bid →
          (pLogError walrus now msg ctx P).2.storage.traceBlobId = some bid) ∧
        (∀ em, walrus = .error em →
          (pLogError walrus now msg ctx P).2.storage.errors.length =
            P.storage.errors.length + 1)) ∧
      (step.continueOnError = true →
        executeStepsGo br now (some L) (step :: rest) =
          (executeStepsGo br now
            (some (logError now msg (some step)
              (logStep now step none "error" none L))) rest).map
            (fun t =>
              ({ success := false, status := "error", error := some msg,
                 step := step } :: t.1, t.2.1, t.2.2))) := by
  refine ⟨?_, ?_, ?_, ?_⟩
  · exact executeStep_handler_err br now step (some L) ty msg hty hrun
  · rfl
  · intro hauto
    constructor
    · intro bid hw
      subst hw
      simp [pLogError, hauto, storeTrace]
    · intro em hw
      subst hw
      by_cases hgd : P.gracefulDegradation <;>
        simp [pLogError, hauto, storeTrace, hgd]
  · intro hcont
    rw [executeStepsGo,
      executeStep_handler_err br now step (some L) ty msg hty hrun]
    dsimp only
    rw [if_neg (by simp [hcont])]
    dsimp only [Option.map]
    cases hgo : executeStepsGo br now
        (some (logError now msg (some step)
          (logStep now step none "error" none L))) rest with
    | error m => rfl
    | ok tr =>
      obtain ⟨rs, flag, lg⟩ := tr
      rfl

/-- A click step with empty params: its handler fails with the
missing-selector validation error on any browser. -/
def clickNoSel : Step := { type := some "click", params := some {} }

/-- C9 witness: on the concrete failing click step, `logError` leaves the
fresh recorder in state `failed`, and the persistent logger's failing
`storeTrace` attempt appends one storage error. -/
theorem failing_step_forces_failed_state_witness :
    (logError 0 "Click: missing selector parameter" none
        (initLogger "s" 0)).state = "failed" ∧
      (pLogError (.error "down") 0 "Click: missing selector parameter" none
        pGraceful).2.storage.errors.length = 0 + 1 := by
  have h := failing_step_forces_failed_state trivialBrowser 0 clickNoSel
    "click" "Click: missing selector parameter" (initLogger "s" 0) none
    (.error "down") pGraceful [wait50] rfl rfl
  exact ⟨h.2.1, (h.2.2.1 rfl).2 "down" rfl⟩

end TaskHawk
